import Mathlib

/-!
Verification of the Domus ambient-display client core.

Shallow embedding of the three core subsystems:
* the animation/transition engine (src/frontend/src/transitions.ts),
* the connection manager (src/frontend/src/ha_client.ts),
* the validating state reducer (src/frontend/src/state_machine.ts).

Time-dependent functions take the clock reading (`performance.now()` /
`Date.now()`) as an explicit argument; the stateful classes become pure
step functions on explicit state records.  Callback invocations
(connection-change, error, result continuations) are recorded in event
logs carried inside the state, so that "callback was / was never invoked"
becomes a statement about those logs.
-/

namespace Domus

/-! ## Transition engine (src/frontend/src/transitions.ts) -/

/-- Standard ease-in-out easing, from `easeInOut` in transitions.ts.
JavaScript numbers are modelled as rationals. -/
def easeInOut (t : ℚ) : ℚ :=
  if t < 1/2 then 2 * t * t else 1 - (-2 * t + 2) ^ 2 / 2

/-- Very gentle cubic easing, from `easeGentle` in transitions.ts. -/
def easeGentle (t : ℚ) : ℚ :=
  if t < 1/2 then 4 * t * t * t else 1 - (-2 * t + 2) ^ 3 / 2

/-- Linear easing, from `linear` in transitions.ts. -/
def linear (t : ℚ) : ℚ := t

/- The `DURATIONS` constant table from transitions.ts. -/
namespace DURATIONS

def fast : ℚ := 1000

def normal : ℚ := 3000

def slow : ℚ := 5000

def glacial : ℚ := 30000

def pulse : ℚ := 8000

def particle : ℚ := 15000

end DURATIONS

/-- State of a `NumericTransition` object: the private fields `from`, `to`,
`startTime`, `duration`, `easing` of the class in transitions.ts.
(`from` is a Lean keyword, hence `from_`.) -/
structure NumericTransition where
  from_ : ℚ
  to_ : ℚ
  startTime : ℚ
  duration : ℚ
  easing : ℚ → ℚ

/-- The `NumericTransition` constructor: both endpoints start at
`initialValue` and `startTime` is the 0 sentinel (never transitioned). -/
def NumericTransition.create (initialValue : ℚ) (duration : ℚ)
    (easing : ℚ → ℚ) : NumericTransition :=
  { from_ := initialValue, to_ := initialValue, startTime := 0
    duration := duration, easing := easing }

/-- `NumericTransition.getValue`, with `performance.now()` passed as `now`:
the 0 sentinel returns `to`; otherwise interpolate with clamped progress. -/
def NumericTransition.getValue (t : NumericTransition) (now : ℚ) : ℚ :=
  if t.startTime = 0 then t.to_
  else
    let elapsed := now - t.startTime
    let progress := min (elapsed / t.duration) 1
    let eased := t.easing progress
    t.from_ + (t.to_ - t.from_) * eased

/-- `NumericTransition.transitionTo(target, duration?)` at clock `now`:
captures the current interpolated value as the new `from`, then sets the
new target and start time; the duration is replaced only when supplied. -/
def NumericTransition.transitionTo (t : NumericTransition)
    (now target : ℚ) (durationArg : Option ℚ) : NumericTransition :=
  { t with from_ := t.getValue now, to_ := target, startTime := now
           duration := durationArg.getD t.duration }

/-- `NumericTransition.isComplete` at clock `now`. -/
def NumericTransition.isComplete (t : NumericTransition) (now : ℚ) : Bool :=
  if t.startTime = 0 then true else decide (t.duration ≤ now - t.startTime)

/-- `NumericTransition.getTarget`. -/
def NumericTransition.getTarget (t : NumericTransition) : ℚ := t.to_

/-- `NumericTransition.setImmediate(value)`: both endpoints become `value`
and the start time returns to the 0 sentinel. -/
def NumericTransition.setImmediate (t : NumericTransition)
    (value : ℚ) : NumericTransition :=
  { t with from_ := value, to_ := value, startTime := 0 }

/-! ## Connection manager (src/frontend/src/ha_client.ts) -/

/-- The `ConnectionState` union type of ha_client.ts. -/
inductive ConnectionState where
  | disconnected
  | connecting
  | authenticating
  | connected
deriving DecidableEq

/-- One recorded invocation of a caller-supplied callback
(`onConnectionChange`, `onError`, `onStatesLoaded`, `onStateChange`). -/
inductive Emitted where
  | connectionChange (state : ConnectionState)
  | errorCb
  | statesLoaded
  | stateChange
deriving DecidableEq

/-- `BASE_RECONNECT_DELAY` (ms). -/
def BASE_RECONNECT_DELAY : Nat := 1000

/-- `MAX_RECONNECT_DELAY` (ms). -/
def MAX_RECONNECT_DELAY : Nat := 60000

/-- The mutable fields of `HAClient`, plus two histories: `emitted`, the
ordered log of caller-callback invocations, and `fired`, the ids whose
pending-request continuations have been invoked.  `pending` holds the ids
of the registered response continuations (the keys of `pendingRequests`);
`wsAlive` records whether `ws` is non-null. -/
structure ClientState where
  messageId : Nat
  connectionState : ConnectionState
  reconnectAttempts : Nat
  reconnectTimeout : Option Nat
  pending : List Nat
  wsAlive : Bool
  emitted : List Emitted
  fired : List Nat
deriving DecidableEq

/-- A freshly constructed `HAClient`. -/
def initialClient : ClientState :=
  { messageId := 0, connectionState := ConnectionState.disconnected
    reconnectAttempts := 0, reconnectTimeout := none, pending := []
    wsAlive := false, emitted := [], fired := [] }

/-- `setConnectionState`: records the new state and fires
`onConnectionChange` only on an actual change. -/
def setConnectionState (s : ClientState) (st : ConnectionState) : ClientState :=
  if s.connectionState = st then s
  else { s with connectionState := st
                emitted := s.emitted ++ [Emitted.connectionChange st] }

/-- `clearReconnectTimeout`: cancels a pending reconnection timer. -/
def clearReconnectTimeout (s : ClientState) : ClientState :=
  { s with reconnectTimeout := none }

/-- `disconnect()`: cancel the timer, close and drop the socket, land in
`disconnected`.  The socket's asynchronous close event is modelled as a
separate later `handleClose` step. -/
def disconnect (s : ClientState) : ClientState :=
  setConnectionState { clearReconnectTimeout s with wsAlive := false }
    ConnectionState.disconnected

/-- The backoff delay computed inside `scheduleReconnect`. -/
def reconnectDelay (attempts : Nat) : Nat :=
  min (BASE_RECONNECT_DELAY * 2 ^ attempts) MAX_RECONNECT_DELAY

/-- `scheduleReconnect`: land in `disconnected` and arm the backoff timer.
`reconnectTimeout = some d` models an armed timer with delay `d`. -/
def scheduleReconnect (s : ClientState) : ClientState :=
  let s1 := setConnectionState s ConnectionState.disconnected
  { s1 with reconnectTimeout := some (reconnectDelay s1.reconnectAttempts) }

/-- `handleClose`: the socket close event.  The socket is dropped and all
pending request continuations are cleared (never invoked: `fired` is
untouched); a reconnect is scheduled unless the state is already
`disconnected` (i.e. unless an explicit `disconnect()` caused the close). -/
def handleClose (s : ClientState) : ClientState :=
  let s1 := { s with wsAlive := false, pending := [] }
  if s1.connectionState = ConnectionState.disconnected then s1
  else scheduleReconnect s1

/-- `attemptConnection`: enter `connecting` and open a fresh socket. -/
def attemptConnection (s : ClientState) : ClientState :=
  { setConnectionState s ConnectionState.connecting with wsAlive := true }

/-- `connect()`: a no-op unless currently `disconnected`. -/
def connect (s : ClientState) : ClientState :=
  if s.connectionState = ConnectionState.disconnected then
    attemptConnection s
  else s

/-- `handleOpen`: socket opened, waiting for the auth challenge. -/
def handleOpen (s : ClientState) : ClientState :=
  setConnectionState s ConnectionState.authenticating

/-- The reconnection timer firing: `reconnectAttempts++` then
`attemptConnection()`; the armed timer is consumed. -/
def reconnectTimerFire (s : ClientState) : ClientState :=
  attemptConnection { s with reconnectAttempts := s.reconnectAttempts + 1
                             reconnectTimeout := none }

/-- `subscribeToStateChanges`: allocates a fresh id via `nextMessageId`
(`++this.messageId`) and sends the fire-and-forget `subscribe_events`
request; no continuation is registered. -/
def subscribeToStateChanges (s : ClientState) : ClientState :=
  { s with messageId := s.messageId + 1 }

/-- `fetchInitialStates`: allocates a fresh id, sends `get_states`, and
registers the response continuation under that id. -/
def fetchInitialStates (s : ClientState) : ClientState :=
  { s with messageId := s.messageId + 1
           pending := s.pending ++ [s.messageId + 1] }

/-- `handleAuthOk`: reach `connected`, reset the attempt counter, then
issue the subscription and the snapshot request. -/
def handleAuthOk (s : ClientState) : ClientState :=
  fetchInitialStates (subscribeToStateChanges
    { setConnectionState s ConnectionState.connected with
        reconnectAttempts := 0 })

/-- `handleAuthInvalid`: notify the caller's error callback, then
`disconnect()` (no reconnection for a bad token). -/
def handleAuthInvalid (s : ClientState) : ClientState :=
  disconnect { s with emitted := s.emitted ++ [Emitted.errorCb] }

/-- `handleResult(msg)`: if a continuation is registered under `msg.id`,
remove it and invoke it (recorded in `fired`; the only registered
continuation is the `get_states` one, which fires `onStatesLoaded`). -/
def handleResult (s : ClientState) (msgId : Nat) : ClientState :=
  if s.pending.contains msgId then
    { s with pending := s.pending.filter (fun i => i ≠ msgId)
             fired := s.fired ++ [msgId]
             emitted := s.emitted ++ [Emitted.statesLoaded] }
  else s

/-! ## State reducer (src/frontend/src/state_machine.ts) -/

/-- `VALID_ACTIVITY` from state_machine.ts. -/
def VALID_ACTIVITY : List String := ["empty", "quiet", "active", "busy"]

/-- `VALID_ENERGY` from state_machine.ts. -/
def VALID_ENERGY : List String := ["self_powered", "mixed", "grid_dependent"]

/-- `VALID_ENERGY_FLOW` from state_machine.ts. -/
def VALID_ENERGY_FLOW : List String := ["importing", "exporting", "balanced"]

/-- `VALID_COMFORT` from state_machine.ts. -/
def VALID_COMFORT : List String := ["cold", "cool", "neutral", "warm", "hot"]

/-- `VALID_DAY` from state_machine.ts. -/
def VALID_DAY : List String := ["day", "twilight", "night"]

def isValidActivity (value : String) : Bool := VALID_ACTIVITY.contains value

def isValidEnergy (value : String) : Bool := VALID_ENERGY.contains value

def isValidEnergyFlow (value : String) : Bool :=
  VALID_ENERGY_FLOW.contains value

def isValidComfort (value : String) : Bool := VALID_COMFORT.contains value

def isValidDayState (value : String) : Bool := VALID_DAY.contains value

/-- `HouseState` from types.ts.  The enum-typed axes are runtime strings in
TypeScript, so they are `String` here; validity is enforced by the parse
functions exactly as in the source. -/
structure HouseState where
  activity : String
  energy : String
  energyFlow : String
  comfort : String
  dayState : String
  lastUpdated : Nat
  connected : Bool
deriving DecidableEq

/-- `DEFAULT_HOUSE_STATE` from types.ts. -/
def DEFAULT_HOUSE_STATE : HouseState :=
  { activity := "quiet", energy := "mixed", energyFlow := "balanced"
    comfort := "neutral", dayState := "day", lastUpdated := 0
    connected := false }

/-- A `Partial<HouseState>` object: each field present or absent. -/
structure HouseStateUpdate where
  activity : Option String
  energy : Option String
  energyFlow : Option String
  comfort : Option String
  dayState : Option String
  lastUpdated : Option Nat
  connected : Option Bool
deriving DecidableEq

/-- The empty object literal. -/
def emptyUpdate : HouseStateUpdate :=
  { activity := none, energy := none, energyFlow := none, comfort := none
    dayState := none, lastUpdated := none, connected := none }

/-- Right-biased merge of one optional field, as `Object.assign` does. -/
def oMerge {α : Type} (a b : Option α) : Option α :=
  match b with
  | some x => some x
  | none => a

/-- `Object.assign(a, b)`: fields present in `b` override those of `a`. -/
def HouseStateUpdate.merge (a b : HouseStateUpdate) : HouseStateUpdate :=
  { activity := oMerge a.activity b.activity
    energy := oMerge a.energy b.energy
    energyFlow := oMerge a.energyFlow b.energyFlow
    comfort := oMerge a.comfort b.comfort
    dayState := oMerge a.dayState b.dayState
    lastUpdated := oMerge a.lastUpdated b.lastUpdated
    connected := oMerge a.connected b.connected }

/-- `Object.keys(u).length > 0` is false, i.e. the partial is empty. -/
def HouseStateUpdate.isEmpty (u : HouseStateUpdate) : Bool :=
  u.activity.isNone && u.energy.isNone && u.energyFlow.isNone &&
  u.comfort.isNone && u.dayState.isNone && u.lastUpdated.isNone &&
  u.connected.isNone

/-- `updateState(updates)`: the spread `{ ...current, ...updates }`
(listener notification carries no state and is omitted here). -/
def updateState (s : HouseState) (u : HouseStateUpdate) : HouseState :=
  { activity := u.activity.getD s.activity
    energy := u.energy.getD s.energy
    energyFlow := u.energyFlow.getD s.energyFlow
    comfort := u.comfort.getD s.comfort
    dayState := u.dayState.getD s.dayState
    lastUpdated := u.lastUpdated.getD s.lastUpdated
    connected := u.connected.getD s.connected }

/-- `parseActivity`. -/
def parseActivity (value : String) : HouseStateUpdate :=
  if isValidActivity value then { emptyUpdate with activity := some value }
  else emptyUpdate

/-- `parseEnergy`. -/
def parseEnergy (value : String) : HouseStateUpdate :=
  if isValidEnergy value then { emptyUpdate with energy := some value }
  else emptyUpdate

/-- `parseEnergyFlow`. -/
def parseEnergyFlow (value : String) : HouseStateUpdate :=
  if isValidEnergyFlow value then
    { emptyUpdate with energyFlow := some value }
  else emptyUpdate

/-- `parseComfort`. -/
def parseComfort (value : String) : HouseStateUpdate :=
  if isValidComfort value then { emptyUpdate with comfort := some value }
  else emptyUpdate

/-- `parseDayState`. -/
def parseDayState (value : String) : HouseStateUpdate :=
  if isValidDayState value then { emptyUpdate with dayState := some value }
  else emptyUpdate

/-- `parseEntityState(entityId, state)`; of the incoming `HAEntityState`
only the `state` string is consulted, passed here as `value`. -/
def parseEntityState (entityId value : String) : HouseStateUpdate :=
  if entityId = "sensor.house_activity_state" then parseActivity value
  else if entityId = "sensor.house_energy_state" then parseEnergy value
  else if entityId = "sensor.house_energy_flow" then parseEnergyFlow value
  else if entityId = "sensor.house_comfort_state" then parseComfort value
  else if entityId = "sensor.house_day_state" then parseDayState value
  else emptyUpdate

/-- `loadInitialStates(states)` at clock `now` (`Date.now()`): the updates
object starts as `\x7b lastUpdated: Date.now() \x7d` and each entry's
parse result is `Object.assign`-ed onto it, in map iteration order. -/
def loadInitialStates (s : HouseState) (states : List (String × String))
    (now : Nat) : HouseState :=
  updateState s (states.foldl
    (fun acc p => HouseStateUpdate.merge acc (parseEntityState p.1 p.2))
    { emptyUpdate with lastUpdated := some now })

/-- `handleStateChange(entityId, state)` at clock `now`: if the parse
result is non-empty, stamp it with `lastUpdated = now` and apply it;
otherwise do nothing. -/
def handleStateChange (s : HouseState) (entityId value : String)
    (now : Nat) : HouseState :=
  let updates := parseEntityState entityId value
  if updates.isEmpty then s
  else updateState s { updates with lastUpdated := some now }

/-- `setConnected(connected)`: applies only on an actual flip. -/
def setConnected (s : HouseState) (connected : Bool) : HouseState :=
  if s.connected = connected then s
  else updateState s { emptyUpdate with connected := some connected }

/-! ## Theorems: transition engine -/

/-- C1: Re-targeting mid-flight never jumps: for a numeric transition whose
easing maps 0 to 0 (as all three easing functions of the program do), a
`transitionTo` call at a positive clock instant `now`, with a positive
effective duration, leaves `getValue` at that same instant unchanged —
the instantaneous value is captured as the new `from` before the new
target and start time are installed. -/
theorem C1_retarget_preserves_value (t : NumericTransition)
    (now target : ℚ) (durationArg : Option ℚ) (h0 : t.easing 0 = 0)
    (hnow : 0 < now) (hdur : 0 < durationArg.getD t.duration) :
    (t.transitionTo now target durationArg).getValue now = t.getValue now := by
  have hne : now ≠ 0 := ne_of_gt hnow
  have h1 : (t.transitionTo now target durationArg).getValue now
      = t.getValue now + (target - t.getValue now) *
        t.easing (min ((now - now) / (durationArg.getD t.duration)) 1) := by
    simp only [NumericTransition.getValue, NumericTransition.transitionTo,
      if_neg hne]
  rw [h1, sub_self, zero_div]
  rw [min_eq_left (by norm_num : (0:ℚ) ≤ 1), h0]
  ring

/-- Witness for C1: a 0→100 transition over 1000ms started at t=100,
re-targeted to 50 at clock 600 (elapsed 500ms), reports exactly 50 both
before and immediately after the re-targeting. -/
theorem C1_retarget_preserves_value_witness :
    easeInOut 0 = 0 ∧ (0:ℚ) < 600 ∧
    (0:ℚ) < (Option.getD (none : Option ℚ)
      (NumericTransition.mk 0 100 100 1000 easeInOut).duration) ∧
    (NumericTransition.mk 0 100 100 1000 easeInOut).getValue 600 = 50 ∧
    ((NumericTransition.mk 0 100 100 1000 easeInOut).transitionTo
        600 50 none).getValue 600
      = (NumericTransition.mk 0 100 100 1000 easeInOut).getValue 600 := by
  refine ⟨by norm_num [easeInOut], by norm_num, by norm_num, ?_, ?_⟩
  · norm_num [NumericTransition.getValue, easeInOut, min_def]
  · exact C1_retarget_preserves_value _ 600 50 none
      (by norm_num [easeInOut]) (by norm_num) (by norm_num)

/-- C9: for a started transition (start time off the 0 sentinel) with
positive duration and an easing mapping 1 to 1 (as all three easing
functions of the program do), `isComplete` holds exactly when the elapsed
time reaches the duration, and any `getValue` query at or after completion
returns exactly the target, never an extrapolation beyond it. -/
theorem C9_completion_exact_target (t : NumericTransition) (now : ℚ)
    (h1 : t.easing 1 = 1) (hdur : 0 < t.duration) (hst : t.startTime ≠ 0) :
    (t.isComplete now = true ↔ t.duration ≤ now - t.startTime) ∧
    (t.duration ≤ now - t.startTime → t.getValue now = t.to_) := by
  constructor
  · simp [NumericTransition.isComplete, if_neg hst]
  · intro hle
    have hprog : (1:ℚ) ≤ (now - t.startTime) / t.duration := by
      rw [le_div_iff₀ hdur]; linarith
    simp only [NumericTransition.getValue, if_neg hst]
    rw [min_eq_right hprog, h1]
    ring

/-- Witness for C9: the 0→100 transition started at clock 100 with
duration 1000 is complete at clock 1600 and reports exactly 100 there. -/
theorem C9_completion_exact_target_witness :
    (NumericTransition.mk 0 100 100 1000 easeInOut).isComplete 1600 = true ∧
    (NumericTransition.mk 0 100 100 1000 easeInOut).getValue 1600 = 100 := by
  have h := C9_completion_exact_target
    (NumericTransition.mk 0 100 100 1000 easeInOut) 1600
    (by norm_num [easeInOut]) (by norm_num) (by norm_num)
  exact ⟨h.1.mpr (by norm_num), h.2 (by norm_num)⟩

/-- C10: a transition still on the 0 start-time sentinel — freshly
constructed, or reset by `setImmediate` — reports exactly its assigned
value from `getValue` and is complete, whatever the clock reads. -/
theorem C10_sentinel_reports_assigned_value (v dur : ℚ) (e : ℚ → ℚ)
    (t : NumericTransition) (value now : ℚ) :
    (NumericTransition.create v dur e).getValue now = v ∧
    (NumericTransition.create v dur e).isComplete now = true ∧
    (t.setImmediate value).getValue now = value ∧
    (t.setImmediate value).isComplete now = true := by
  refine ⟨?_, ?_, ?_, ?_⟩ <;>
    simp [NumericTransition.create, NumericTransition.getValue,
      NumericTransition.isComplete, NumericTransition.setImmediate]

/-! ## Theorems: connection manager -/

/-- C2 counterexample: the claim says the correlation-id counter is
incremented only when a response-tracked request is sent.  But the
fire-and-forget `subscribe_events` request — which registers no response
continuation, leaving `pendingRequests` untouched — still increments the
counter: on a fresh client it moves the counter from 0 to 1. -/
theorem C2_counterexample_subscription_increments :
    (subscribeToStateChanges initialClient).messageId ≠
      initialClient.messageId ∧
    (subscribeToStateChanges initialClient).pending =
      initialClient.pending := by
  constructor
  · simp [subscribeToStateChanges, initialClient]
  · rfl

/-- C2 (amended): the counter starts at 0 so the first issued id is 1
(zero is never used as an id), every id-bearing send — the fire-and-forget
subscription included — increments it by exactly one, only the `get_states`
send registers a continuation (under the id it was issued), and there is
no overflow wraparound: the counter only ever grows. -/
theorem C2_amended_counter_increments_on_every_send (s : ClientState) :
    initialClient.messageId = 0 ∧
    (subscribeToStateChanges s).messageId = s.messageId + 1 ∧
    (subscribeToStateChanges s).pending = s.pending ∧
    (fetchInitialStates s).messageId = s.messageId + 1 ∧
    (fetchInitialStates s).pending = s.pending ++ [s.messageId + 1] ∧
    0 < (subscribeToStateChanges s).messageId ∧
    s.messageId ≤ (subscribeToStateChanges s).messageId ∧
    s.messageId ≤ (fetchInitialStates s).messageId := by
  refine ⟨rfl, rfl, rfl, rfl, rfl, ?_, ?_, ?_⟩ <;>
    simp [subscribeToStateChanges, fetchInitialStates]

/-- C4: after an explicit `disconnect()` from any connection state, the
state is `disconnected` with no armed reconnection timer; the ensuing
socket close removes every pending correlated request without invoking any
continuation (the `fired` log is untouched) and schedules no reconnection
(the timer stays disarmed and the state stays `disconnected`). -/
theorem C4_disconnect_is_terminal (s : ClientState) :
    (disconnect s).connectionState = ConnectionState.disconnected ∧
    (disconnect s).reconnectTimeout = none ∧
    (handleClose (disconnect s)).pending = [] ∧
    (handleClose (disconnect s)).fired = s.fired ∧
    (handleClose (disconnect s)).reconnectTimeout = none ∧
    (handleClose (disconnect s)).connectionState =
      ConnectionState.disconnected := by
  unfold disconnect handleClose setConnectionState clearReconnectTimeout
  by_cases h : s.connectionState = ConnectionState.disconnected <;>
    simp [h]

/-- C5: the reconnection delay is `min(base * 2 ^ attempt, cap)`; with
base 1000ms and cap 60000ms attempts 0–3 give exactly 1000, 2000, 4000,
8000ms, every attempt ≥ 6 gives exactly 60000ms, no attempt ever exceeds
60000ms; the attempt counter increments by one each time the reconnect
timer fires a new cycle, and reaching `connected` (`handleAuthOk`) resets
it to zero while no other lifecycle step touches it. -/
theorem C5_backoff_delay (n m : Nat) (s : ClientState) (hn : 6 ≤ n) :
    reconnectDelay 0 = 1000 ∧ reconnectDelay 1 = 2000 ∧
    reconnectDelay 2 = 4000 ∧ reconnectDelay 3 = 8000 ∧
    reconnectDelay n = 60000 ∧ reconnectDelay m ≤ 60000 ∧
    (scheduleReconnect s).reconnectTimeout =
      some (reconnectDelay s.reconnectAttempts) ∧
    (reconnectTimerFire s).reconnectAttempts = s.reconnectAttempts + 1 ∧
    (handleAuthOk s).connectionState = ConnectionState.connected ∧
    (handleAuthOk s).reconnectAttempts = 0 ∧
    (handleClose s).reconnectAttempts = s.reconnectAttempts ∧
    (scheduleReconnect s).reconnectAttempts = s.reconnectAttempts ∧
    (disconnect s).reconnectAttempts = s.reconnectAttempts ∧
    (handleAuthInvalid s).reconnectAttempts = s.reconnectAttempts ∧
    (connect s).reconnectAttempts = s.reconnectAttempts ∧
    (handleOpen s).reconnectAttempts = s.reconnectAttempts := by
  have hsat : reconnectDelay n = 60000 := by
    have h64 : (64 : Nat) ≤ 2 ^ n := by
      calc (64 : Nat) = 2 ^ 6 := by norm_num
        _ ≤ 2 ^ n := Nat.pow_le_pow_right (by norm_num) hn
    unfold reconnectDelay BASE_RECONNECT_DELAY MAX_RECONNECT_DELAY
    have : 60000 ≤ 1000 * 2 ^ n := by
      calc (60000 : Nat) ≤ 1000 * 64 := by norm_num
        _ ≤ 1000 * 2 ^ n := Nat.mul_le_mul_left 1000 h64
    exact Nat.min_eq_right this
  refine ⟨by decide, by decide, by decide, by decide, hsat,
    Nat.min_le_right _ _, ?_, ?_, ?_, ?_, ?_, ?_, ?_, ?_, ?_, ?_⟩ <;>
    simp only [scheduleReconnect, setConnectionState, reconnectTimerFire,
      attemptConnection, handleAuthOk, fetchInitialStates,
      subscribeToStateChanges, handleClose, disconnect, handleAuthInvalid,
      connect, handleOpen, clearReconnectTimeout] <;>
    repeat' split <;> simp_all

/-- Witness for C5 at attempt 7 on a fresh client. -/
theorem C5_backoff_delay_witness :
    reconnectDelay 0 = 1000 ∧ reconnectDelay 1 = 2000 ∧
    reconnectDelay 2 = 4000 ∧ reconnectDelay 3 = 8000 ∧
    reconnectDelay 7 = 60000 ∧ reconnectDelay 11 ≤ 60000 ∧
    (scheduleReconnect initialClient).reconnectTimeout =
      some (reconnectDelay initialClient.reconnectAttempts) ∧
    (reconnectTimerFire initialClient).reconnectAttempts =
      initialClient.reconnectAttempts + 1 ∧
    (handleAuthOk initialClient).connectionState =
      ConnectionState.connected ∧
    (handleAuthOk initialClient).reconnectAttempts = 0 ∧
    (handleClose initialClient).reconnectAttempts =
      initialClient.reconnectAttempts ∧
    (scheduleReconnect initialClient).reconnectAttempts =
      initialClient.reconnectAttempts ∧
    (disconnect initialClient).reconnectAttempts =
      initialClient.reconnectAttempts ∧
    (handleAuthInvalid initialClient).reconnectAttempts =
      initialClient.reconnectAttempts ∧
    (connect initialClient).reconnectAttempts =
      initialClient.reconnectAttempts ∧
    (handleOpen initialClient).reconnectAttempts =
      initialClient.reconnectAttempts :=
  C5_backoff_delay 7 11 initialClient (by norm_num)

/-- C8: from the `authenticating` state, `auth_invalid` invokes the
caller's error callback and emits the `disconnected` connection-change
exactly once; neither the rejection itself nor the ensuing socket close
leaves an armed reconnection timer, and the close emits nothing further. -/
theorem C8_auth_invalid_terminal (s : ClientState)
    (h : s.connectionState = ConnectionState.authenticating) :
    (handleAuthInvalid s).emitted = s.emitted ++
      [Emitted.errorCb,
       Emitted.connectionChange ConnectionState.disconnected] ∧
    (handleAuthInvalid s).connectionState = ConnectionState.disconnected ∧
    (handleAuthInvalid s).reconnectTimeout = none ∧
    (handleClose (handleAuthInvalid s)).emitted = s.emitted ++
      [Emitted.errorCb,
       Emitted.connectionChange ConnectionState.disconnected] ∧
    (handleClose (handleAuthInvalid s)).connectionState =
      ConnectionState.disconnected ∧
    (handleClose (handleAuthInvalid s)).reconnectTimeout = none := by
  unfold handleAuthInvalid disconnect handleClose setConnectionState
    clearReconnectTimeout
  simp [h]

/-- Witness for C8 on a client that has connected and received the socket
open event, so that it sits in `authenticating`. -/
theorem C8_auth_invalid_terminal_witness :
    (handleOpen (connect initialClient)).connectionState =
      ConnectionState.authenticating ∧
    (handleAuthInvalid (handleOpen (connect initialClient))).emitted =
      (handleOpen (connect initialClient)).emitted ++
      [Emitted.errorCb,
       Emitted.connectionChange ConnectionState.disconnected] ∧
    (handleClose (handleAuthInvalid (handleOpen
        (connect initialClient)))).reconnectTimeout = none := by
  have h := C8_auth_invalid_terminal (handleOpen (connect initialClient))
    (by decide)
  exact ⟨by decide, h.1, h.2.2.2.2.2⟩

/-! ## Helper lemmas for the state reducer -/

theorem oMerge_none_left {α : Type} (b : Option α) : oMerge none b = b := by
  cases b <;> rfl

theorem oMerge_none_right {α : Type} (a : Option α) : oMerge a none = a :=
  rfl

theorem oMerge_getD {α : Type} (a b : Option α) (x : α) :
    (oMerge a b).getD x = b.getD (a.getD x) := by
  cases b <;> rfl

/-- An empty partial update has every field absent. -/
theorem isEmpty_fields (u : HouseStateUpdate) (h : u.isEmpty = true) :
    u.activity = none ∧ u.energy = none ∧ u.energyFlow = none ∧
    u.comfort = none ∧ u.dayState = none ∧ u.lastUpdated = none ∧
    u.connected = none := by
  simp only [HouseStateUpdate.isEmpty, Bool.and_eq_true,
    Option.isNone_iff_eq_none] at h
  tauto

/-- `Object.assign` with an empty source is the identity. -/
theorem merge_of_isEmpty (a u : HouseStateUpdate) (h : u.isEmpty = true) :
    HouseStateUpdate.merge a u = a := by
  obtain ⟨h1, h2, h3, h4, h5, h6, h7⟩ := isEmpty_fields u h
  unfold HouseStateUpdate.merge
  rw [h1, h2, h3, h4, h5, h6, h7]
  simp only [oMerge_none_right]

/-- Applying a merged partial equals applying its parts in order. -/
theorem updateState_merge (s : HouseState) (a b : HouseStateUpdate) :
    updateState s (HouseStateUpdate.merge a b)
      = updateState (updateState s a) b := by
  simp [updateState, HouseStateUpdate.merge, oMerge_getD]

/-- Every parse result leaves `lastUpdated` absent. -/
theorem parse_lastUpdated_none (e v : String) :
    (parseEntityState e v).lastUpdated = none := by
  unfold parseEntityState parseActivity parseEnergy parseEnergyFlow
    parseComfort parseDayState
  repeat' split
  all_goals rfl

/-- Folding parse results over an accumulator preserves its timestamp. -/
theorem fold_merge_lastUpdated (l : List (String × String))
    (u0 : HouseStateUpdate) :
    (l.foldl (fun acc p =>
        HouseStateUpdate.merge acc (parseEntityState p.1 p.2))
      u0).lastUpdated = u0.lastUpdated := by
  induction l generalizing u0 with
  | nil => rfl
  | cons p t ih =>
      rw [List.foldl_cons, ih]
      show oMerge u0.lastUpdated (parseEntityState p.1 p.2).lastUpdated
        = u0.lastUpdated
      rw [parse_lastUpdated_none, oMerge_none_right]

/-- Batch application is sequential application of the parse results. -/
theorem updateState_fold (l : List (String × String)) :
    ∀ (s : HouseState) (u0 : HouseStateUpdate),
    updateState s (l.foldl (fun acc p =>
        HouseStateUpdate.merge acc (parseEntityState p.1 p.2)) u0)
      = l.foldl (fun st p => updateState st (parseEntityState p.1 p.2))
          (updateState s u0) := by
  induction l with
  | nil => intro s u0; rfl
  | cons p t ih =>
      intro s u0
      rw [List.foldl_cons, List.foldl_cons, ih, updateState_merge]

/-- Applying only the timestamp stamp sets the timestamp. -/
theorem updateState_stamp (s : HouseState) (now : Nat) :
    updateState s { emptyUpdate with lastUpdated := some now }
      = { s with lastUpdated := now } := rfl

/-- Stamping a state already carrying that timestamp is the identity. -/
theorem stamp_of_eq (s : HouseState) (now : Nat)
    (h : s.lastUpdated = now) :
    updateState s { emptyUpdate with lastUpdated := some now } = s := by
  rw [updateState_stamp, ← h]

/-- Applying a parse result never moves the timestamp. -/
theorem updateState_parse_lastUpdated (s : HouseState) (e v : String) :
    (updateState s (parseEntityState e v)).lastUpdated = s.lastUpdated := by
  show (parseEntityState e v).lastUpdated.getD s.lastUpdated = s.lastUpdated
  rw [parse_lastUpdated_none]
  rfl

/-- Stamping a timestamp onto a timestamp-free partial is a merge. -/
theorem merge_stamp (u : HouseStateUpdate) (now : Nat)
    (h : u.lastUpdated = none) :
    HouseStateUpdate.merge { emptyUpdate with lastUpdated := some now } u
      = { u with lastUpdated := some now } := by
  unfold HouseStateUpdate.merge
  rw [h]
  simp only [emptyUpdate, oMerge_none_left, oMerge_none_right]

/-- A non-empty incremental update is stamp-then-apply. -/
theorem handleStateChange_nonempty (s : HouseState) (e v : String)
    (now : Nat) (h : (parseEntityState e v).isEmpty = false) :
    handleStateChange s e v now
      = updateState (updateState s
          { emptyUpdate with lastUpdated := some now })
          (parseEntityState e v) := by
  simp only [handleStateChange, h, Bool.false_eq_true, if_false]
  rw [← merge_stamp (parseEntityState e v) now (parse_lastUpdated_none e v),
    updateState_merge]

/-- On a state already stamped with `now`, a chain of valid incremental
updates coincides with sequentially applying the parse results. -/
theorem incremental_eq_applyFold (now : Nat) (l : List (String × String)) :
    ∀ st : HouseState,
    (∀ p ∈ l, (parseEntityState p.1 p.2).isEmpty = false) →
    st.lastUpdated = now →
    l.foldl (fun st p => handleStateChange st p.1 p.2 now) st
      = l.foldl (fun st p => updateState st (parseEntityState p.1 p.2))
          st := by
  induction l with
  | nil => intro st _ _; rfl
  | cons p t ih =>
      intro st hall hlu
      rw [List.foldl_cons, List.foldl_cons]
      have hp : (parseEntityState p.1 p.2).isEmpty = false :=
        hall p (List.mem_cons_self p t)
      have hstep : handleStateChange st p.1 p.2 now
          = updateState st (parseEntityState p.1 p.2) := by
        rw [handleStateChange_nonempty st p.1 p.2 now hp,
          stamp_of_eq st now hlu]
      rw [hstep]
      exact ih (updateState st (parseEntityState p.1 p.2))
        (fun q hq => hall q (List.mem_cons_of_mem p hq))
        (by rw [updateState_parse_lastUpdated]; exact hlu)

/-! ## Theorems: state reducer -/

/-- C3 counterexample: a batch whose only content is an invalid value for
a known axis (`sensor.house_activity_state` with the out-of-enumeration
value "bogus") advances the last-updated timestamp anyway: from the
default state (timestamp 0) at clock 5, `loadInitialStates` leaves every
axis untouched but stamps the timestamp to 5, because the batch path puts
`lastUpdated: Date.now()` into the updates object unconditionally. -/
theorem C3_counterexample_invalid_batch_advances_timestamp :
    loadInitialStates DEFAULT_HOUSE_STATE
        [("sensor.house_activity_state", "bogus")] 5
      = { DEFAULT_HOUSE_STATE with lastUpdated := 5 } ∧
    DEFAULT_HOUSE_STATE.lastUpdated ≠ 5 := by
  constructor
  · decide
  · decide

/-- C3 (amended): the batch path (`loadInitialStates`) always sets the
timestamp to the current clock, whether or not any axis changed; the
incremental path (`handleStateChange`) advances the timestamp exactly when
the pair parses to a non-empty update (a known axis with a valid value,
even if equal to the current value), and leaves it untouched otherwise. -/
theorem C3_amended_timestamp_policy (s : HouseState)
    (states : List (String × String)) (e v : String) (now : Nat) :
    (loadInitialStates s states now).lastUpdated = now ∧
    (handleStateChange s e v now).lastUpdated =
      (if (parseEntityState e v).isEmpty then s.lastUpdated else now) := by
  constructor
  · simp only [loadInitialStates, updateState]
    rw [fold_merge_lastUpdated]
    rfl
  · by_cases h : (parseEntityState e v).isEmpty = true
    · simp [handleStateChange, h]
    · rw [Bool.not_eq_true] at h
      simp [handleStateChange, updateState, h]

/-- C6 counterexample: for the empty update sequence the two application
orders disagree, because the batch path stamps the timestamp even when
the batch carries nothing: at clock 5 on the default state (timestamp 0),
the batch result differs from the unchanged state. -/
theorem C6_counterexample_empty_batch :
    ¬ (([] : List (String × String)).foldl
        (fun st p => handleStateChange st p.1 p.2 5) DEFAULT_HOUSE_STATE
      = loadInitialStates DEFAULT_HOUSE_STATE [] 5) := by
  decide

/-- C6 (amended): for every NON-EMPTY sequence of valid (axis, value)
updates touching pairwise disjoint axes, applying them one at a time as
incremental updates yields the same final canonical snapshot as applying
them all as a single batch, with the same clock reading `now`. -/
theorem C6_amended_incremental_matches_batch (s : HouseState)
    (l : List (String × String)) (now : Nat) (hne : l ≠ [])
    (hvalid : ∀ p ∈ l, (parseEntityState p.1 p.2).isEmpty = false)
    (hdisj : (l.map Prod.fst).Nodup) :
    l.foldl (fun st p => handleStateChange st p.1 p.2 now) s
      = loadInitialStates s l now := by
  obtain ⟨p, t, rfl⟩ : ∃ p t, l = p :: t := by
    cases l with
    | nil => exact absurd rfl hne
    | cons a b => exact ⟨a, b, rfl⟩
  unfold loadInitialStates
  rw [updateState_fold, List.foldl_cons, List.foldl_cons]
  have hp : (parseEntityState p.1 p.2).isEmpty = false :=
    hvalid p (List.mem_cons_self p t)
  rw [handleStateChange_nonempty s p.1 p.2 now hp]
  exact incremental_eq_applyFold now t _
    (fun q hq => hvalid q (List.mem_cons_of_mem p hq))
    (by rw [updateState_parse_lastUpdated, updateState_stamp])

/-- Witness for amended C6: two valid updates on distinct axes give the
same snapshot incrementally and as a batch. -/
theorem C6_amended_incremental_matches_batch_witness :
    (parseEntityState "sensor.house_activity_state" "busy").isEmpty
      = false ∧
    (parseEntityState "sensor.house_day_state" "night").isEmpty = false ∧
    ([("sensor.house_activity_state", "busy"),
      ("sensor.house_day_state", "night")].foldl
        (fun st p => handleStateChange st p.1 p.2 9) DEFAULT_HOUSE_STATE
      = loadInitialStates DEFAULT_HOUSE_STATE
          [("sensor.house_activity_state", "busy"),
           ("sensor.house_day_state", "night")] 9) := by
  refine ⟨by decide, by decide, ?_⟩
  exact C6_amended_incremental_matches_batch DEFAULT_HOUSE_STATE
    [("sensor.house_activity_state", "busy"),
     ("sensor.house_day_state", "night")] 9
    (by decide) (by decide) (by decide)

/-- C7: a pair whose parse result is empty — an unknown axis name, or a
known axis with an out-of-enumeration value — is ignored: an incremental
update with it leaves the snapshot (previous valid values included)
completely unchanged, and removing it from anywhere inside a batch does
not change the batch's result, so it neither prevents nor corrupts the
application of the valid pairs around it. -/
theorem C7_invalid_pair_ignored (s : HouseState) (now : Nat)
    (l1 l2 : List (String × String)) (e v : String)
    (h : (parseEntityState e v).isEmpty = true) :
    handleStateChange s e v now = s ∧
    loadInitialStates s (l1 ++ (e, v) :: l2) now
      = loadInitialStates s (l1 ++ l2) now := by
  constructor
  · simp [handleStateChange, h]
  · unfold loadInitialStates
    simp only [List.foldl_append, List.foldl_cons]
    rw [merge_of_isEmpty _ _ h]

/-- Witness for C7: the invalid activity value "bogus" is ignored both
incrementally and inside a batch between two valid pairs. -/
theorem C7_invalid_pair_ignored_witness :
    (parseEntityState "sensor.house_activity_state" "bogus").isEmpty
      = true ∧
    handleStateChange DEFAULT_HOUSE_STATE
      "sensor.house_activity_state" "bogus" 3 = DEFAULT_HOUSE_STATE ∧
    loadInitialStates DEFAULT_HOUSE_STATE
        [("sensor.house_day_state", "night"),
         ("sensor.house_activity_state", "bogus"),
         ("sensor.house_comfort_state", "warm")] 3
      = loadInitialStates DEFAULT_HOUSE_STATE
          [("sensor.house_day_state", "night"),
           ("sensor.house_comfort_state", "warm")] 3 := by
  have h := C7_invalid_pair_ignored DEFAULT_HOUSE_STATE 3
    [("sensor.house_day_state", "night")]
    [("sensor.house_comfort_state", "warm")]
    "sensor.house_activity_state" "bogus" (by decide)
  exact ⟨by decide, h.1, h.2⟩

end Domus
